import Mathlib

/-!
# Verification of the peer-mesh session layer

A shallow embedding of the peer-mesh session layer of this repository
(the first `Gallery` component of `src/unnamed/part_000`; the iteration in
`src/unnamed/part_002` agrees on everything proved here).  JavaScript
objects (`connectionsRef`, `pendingConnectionsRef`, `playerModelsRef`,
the `players` record, `localStorage` canvas entries) become association
lists keyed by strings, JS `Set` becomes a duplicate-free `List String`
preserving insertion order, and numbers that are only stored and copied
(positions, rotations) become rationals.  Each connection-event handler
becomes a pure function on `NodeState`, returning the list of envelopes
(or transport-level connect calls) it emits.
-/

set_option autoImplicit false

namespace ArMesh

/-- A 3-component position, as in `{x, y, z}` message payloads. -/
structure Pos where
  x : ℚ
  y : ℚ
  z : ℚ
  deriving DecidableEq, Repr

/-- One entry of the `players` record: the avatar state kept per peer
(`id`, `username`, `position`, `rotation`, `color`; the THREE.js `model`
and `nameSprite` object references are modelled separately). -/
structure Player where
  id : String
  username : String
  position : Pos
  rotation : ℚ
  color : String
  deriving DecidableEq, Repr

/-- The pose of a rendered player model (`model.position` with y forced
to 0, and `model.rotation.y`), one entry of `playerModelsRef`. -/
structure ModelPose where
  px : ℚ
  py : ℚ
  pz : ℚ
  rotY : ℚ
  deriving DecidableEq, Repr

/-- Payload of a `playerInfo` message. -/
structure PlayerInfoData where
  id : String
  username : String
  position : Pos
  rotation : ℚ
  color : String
  deriving DecidableEq, Repr

/-- Payload of a `playerMove` message. -/
structure MoveData where
  position : Pos
  rotation : ℚ
  deriving DecidableEq, Repr

/-- The `imageData` field of a canvas message: either a raw encoded-image
string, or a JSON-wrapped `{imageData, timestamp}` record (the source
sends both shapes and `handleCanvasData` try-parses to distinguish them). -/
inductive ImagePayload where
  | raw (s : String)
  | wrapped (imageData : String) (timestamp : Nat)
  deriving DecidableEq, Repr

/-- Payload of a `canvasData` or `updateCanvas` message.  `updatedAtMillis` is
the timestamp field of the spec's wire schema; the source never writes it
(its canvas messages carry only `canvasId` and `imageData`) and never
reads it, which is why it is an `Option` that the handlers ignore. -/
structure CanvasMsg where
  canvasId : String
  imageData : ImagePayload
  updatedAtMillis : Option Nat
  deriving DecidableEq, Repr

/-- A wire envelope `{type, data}`, one constructor per message type the
`conn.on("data")` switch handles. -/
inductive Envelope where
  | playerInfo (d : PlayerInfoData)
  | playerMove (d : MoveData)
  | canvasData (d : CanvasMsg)
  | updateCanvas (d : CanvasMsg)
  | playerLeft (id : String)
  | requestPeerList
  | peerList (peers : List String)
  deriving DecidableEq, Repr

/-- A `localStorage` entry `canvas-<id>`: `{imageData, timestamp}`. -/
structure StoredCanvas where
  imageData : String
  timestamp : Nat
  deriving DecidableEq, Repr

/-- JS object property update: overwrite in place if the key exists
(JS objects keep the original insertion position), append otherwise. -/
def setEntry {α : Type} : List (String × α) → String → α → List (String × α)
  | [], k, v => [(k, v)]
  | (k', v') :: rest, k, v =>
    if k' = k then (k, v) :: rest else (k', v') :: setEntry rest k v

/-- JS `delete obj[k]`. -/
def delEntry {α : Type} (l : List (String × α)) (k : String) : List (String × α) :=
  l.filter (fun p => p.1 ≠ k)

/-- JS `Set.add`: no-op when the element is present, append otherwise. -/
def insertUniq (l : List String) (x : String) : List String :=
  if x ∈ l then l else l ++ [x]

/-- JS `Set.delete`. -/
def removeAll (l : List String) (x : String) : List String :=
  l.filter (fun y => y ≠ x)

/-- The whole mutable state of one node that the session layer touches. -/
structure NodeState where
  /-- the `myId` React state (empty string until the peer `open` event). -/
  myId : String
  /-- whether `peerRef.current` is non-null. -/
  peerAlive : Bool
  /-- the `connectionsRef.current` map: peer id to the connection's `open` flag. -/
  connections : List (String × Bool)
  /-- the keys of `pendingConnectionsRef.current` mapped to `true`. -/
  pending : List String
  /-- the `knownPeersRef.current` set (a JS `Set`). -/
  knownPeers : List String
  /-- the `players` React record. -/
  players : List (String × Player)
  /-- the `playerModelsRef.current` map (model pose per peer id). -/
  playerModels : List (String × ModelPose)
  /-- the `userData.id` of each fixed canvas mesh in `canvases`. -/
  canvasIds : List String
  /-- the current content of each canvas's off-screen canvas. -/
  canvasTextures : List (String × String)
  /-- the `localStorage` entries `canvas-<id>`. -/
  canvasStorage : List (String × StoredCanvas)
  deriving DecidableEq, Repr

/-- Embeds `createPlayerModel(id, playerName, color, position)`: replaces any
existing model, places the new model at `(x, 0, z)` with rotation 0, and
writes the `players` entry with the full position and rotation 0. -/
def createPlayerModel (st : NodeState) (id playerName color : String) (position : Pos) :
    NodeState :=
  { st with
    playerModels := setEntry st.playerModels id ⟨position.x, 0, position.z, 0⟩,
    players := setEntry st.players id ⟨id, playerName, position, 0, color⟩ }

/-- The duplicate test of `handlePlayerInfo`: same id, or same username
with both horizontal coordinates within 0.5. -/
def samePlayer (p : Player) (pd : PlayerInfoData) : Bool :=
  p.id == pd.id ||
    (p.username == pd.username &&
      decide (|p.position.x - pd.position.x| < 1/2) &&
      decide (|p.position.z - pd.position.z| < 1/2))

/-- Embeds `handlePlayerInfo(playerData)`: drop falsy ids, drop our own id
(echo suppression), reposition the rendered model of an already-known
duplicate, otherwise register the peer and create its model. -/
def handlePlayerInfo (st : NodeState) (pd : PlayerInfoData) : NodeState :=
  if pd.id = "" then st
  else if pd.id = st.myId then st
  else
    match st.players.find? (fun p => samePlayer p.2 pd) with
    | some (_, existing) =>
      match st.playerModels.lookup existing.id with
      | some m =>
        { st with
          playerModels :=
            setEntry st.playerModels existing.id ⟨pd.position.x, 0, pd.position.z, m.rotY⟩ }
      | none => st
    | none =>
      let st1 := { st with knownPeers := insertUniq st.knownPeers pd.id }
      createPlayerModel st1 pd.id pd.username pd.color pd.position

/-- Embeds `handlePlayerMove(playerId, moveData)`: update the `players` entry
(full position, rotation) only when one exists, and the rendered model
(y forced to 0) only when one exists. -/
def handlePlayerMove (st : NodeState) (playerId : String) (md : MoveData) : NodeState :=
  if playerId = "" then st
  else
    let players' :=
      match st.players.lookup playerId with
      | none => st.players
      | some pl =>
        setEntry st.players playerId
          { pl with position := md.position, rotation := md.rotation }
    let models' :=
      match st.playerModels.lookup playerId with
      | none => st.playerModels
      | some _ =>
        setEntry st.playerModels playerId
          ⟨md.position.x, 0, md.position.z, md.rotation⟩
    { st with players := players', playerModels := models' }

/-- The image-source resolution of `handleCanvasData`: a raw string is
used directly, a JSON-wrapped record contributes its `imageData` field. -/
def resolveImage : ImagePayload → String
  | .raw s => s
  | .wrapped inner _ => inner

/-- Embeds `handleCanvasData(data)`: drop falsy canvas ids and unknown canvases;
otherwise draw the resolved image onto the off-screen canvas and save it
to `localStorage` stamped with the receive time `now`.  There is no
timestamp comparison anywhere in this handler. -/
def handleCanvasData (st : NodeState) (now : Nat) (d : CanvasMsg) : NodeState :=
  if d.canvasId = "" then st
  else if d.canvasId ∈ st.canvasIds then
    let src := resolveImage d.imageData
    { st with
      canvasTextures := setEntry st.canvasTextures d.canvasId src,
      canvasStorage := setEntry st.canvasStorage d.canvasId ⟨src, now⟩ }
  else st

/-- The peer ids of the connections whose `open` flag is set, in
`Object.entries` order. -/
def openConnections (st : NodeState) : List String :=
  (st.connections.filter (fun c => c.2)).map (fun c => c.1)

/-- Embeds `handleCanvasUpdate(data)`: apply `handleCanvasData`, then forward
`{type: "canvasData", data}` to every open connection — the iteration
makes no exception for the connection the update arrived from. -/
def handleCanvasUpdate (st : NodeState) (now : Nat) (d : CanvasMsg) :
    NodeState × List (String × Envelope) :=
  (handleCanvasData st now d,
   (openConnections st).map (fun p => (p, Envelope.canvasData d)))

/-- Embeds `handlePlayerLeft(playerId)`: drop falsy ids; otherwise remove the
rendered model, the `players` entry and the `knownPeers` membership. -/
def handlePlayerLeft (st : NodeState) (playerId : String) : NodeState :=
  if playerId = "" then st
  else
    { st with
      playerModels := delEntry st.playerModels playerId,
      players := delEntry st.players playerId,
      knownPeers := removeAll st.knownPeers playerId }

/-- Embeds `connectToPeerById(targetPeerId)`: bail out when the peer object is
null or an attempt is already pending; otherwise mark pending, issue one
transport-level `peer.connect` (returned in the second component) and
store the new, not-yet-open connection.  The 10-second timeout it arms is
`connectTimeout` below. -/
def connectToPeerById (st : NodeState) (target : String) : NodeState × List String :=
  if ¬st.peerAlive ∨ target ∈ st.pending then (st, [])
  else
    ({ st with
        pending := insertUniq st.pending target,
        connections := setEntry st.connections target false },
     [target])

/-- The body of the 10-second timeout armed by `connectToPeerById`: when
the attempt is still pending, clear the pending mark and, unless the
stored connection reports open, discard it and call `connectToPeerById`
once more.  The second component lists the retry calls issued. -/
def connectTimeout (st : NodeState) (target : String) : NodeState × List String :=
  if target ∈ st.pending then
    let st1 := { st with pending := removeAll st.pending target }
    if (st1.connections.lookup target).getD false then (st1, [])
    else
      ((connectToPeerById { st1 with connections := delEntry st1.connections target }
          target).1,
       [target])
  else (st, [])

/-- The `conn.on("close")` handler: drop the connection and the pending
mark, run `handlePlayerLeft` for the peer, and delete the peer from
`knownPeers`. -/
def connCloseEvent (st : NodeState) (peerId : String) : NodeState :=
  let st1 :=
    { st with
      connections := delEntry st.connections peerId,
      pending := removeAll st.pending peerId }
  let st2 := handlePlayerLeft st1 peerId
  { st2 with knownPeers := removeAll st2.knownPeers peerId }

/-- The synchronous part of the `conn.on("error")` handler: clear the
pending mark and, when the connection is not open, drop its entry (the
3-second reconnect timer it arms is `connErrorRetry`).  `knownPeers` is
not touched. -/
def connErrorEvent (st : NodeState) (peerId : String) : NodeState :=
  let st1 := { st with pending := removeAll st.pending peerId }
  if (st1.connections.lookup peerId).getD false then st1
  else { st1 with connections := delEntry st1.connections peerId }

/-- The 3-second timer armed by the error handler: reconnect when the
peer is still known and no connection entry exists. -/
def connErrorRetry (st : NodeState) (peerId : String) : NodeState × List String :=
  if peerId ∈ st.knownPeers ∧ st.connections.lookup peerId = none then
    connectToPeerById st peerId
  else (st, [])

/-- The local `peer.on("open")` handler together with `joinGallery`:
record the assigned id, add it to `knownPeers`, create our own model,
and connect to the bootstrap peer from the URL when it is non-empty and
not ourselves. -/
def peerOpenEvent (st : NodeState) (id username color : String) (pos : Pos)
    (urlPeer : Option String) : NodeState × List String :=
  let st1 := { st with myId := id, knownPeers := insertUniq st.knownPeers id }
  let st2 := createPlayerModel st1 id username color pos
  match urlPeer with
  | some p => if p ≠ "" ∧ p ≠ id then connectToPeerById st2 p else (st2, [])
  | none => (st2, [])

/-- Embeds `forceReconnect()`: destroy and recreate the peer object, clear all
connections and pending marks, keep only our own model and `players`
entry, and reset `knownPeers` to contain exactly our own id when one is
assigned (`myId` itself only changes on the next `open` event). -/
def forceReconnect (st : NodeState) : NodeState :=
  { st with
    peerAlive := true,
    connections := [],
    pending := [],
    playerModels := st.playerModels.filter (fun p => p.1 = st.myId),
    players := st.players.filter (fun p => st.myId ≠ "" ∧ p.1 = st.myId),
    knownPeers := if st.myId = "" then [] else [st.myId] }

/-- The `conn.on("data")` switch: dispatch one received envelope from
`fromPeer`, returning the new state and the envelopes sent in response
(`now` stands for `Date.now()` during the handling). -/
def dispatchData (st : NodeState) (fromPeer : String) (env : Envelope) (now : Nat) :
    NodeState × List (String × Envelope) :=
  match env with
  | .playerInfo d => (handlePlayerInfo st d, [])
  | .playerMove d => (handlePlayerMove st fromPeer d, [])
  | .canvasData d => (handleCanvasData st now d, [])
  | .updateCanvas d => handleCanvasUpdate st now d
  | .playerLeft id => (handlePlayerLeft st id, [])
  | .requestPeerList =>
    if (st.connections.lookup fromPeer).getD false then
      (st, [(fromPeer, Envelope.peerList st.knownPeers)])
    else (st, [])
  | .peerList peers =>
    (peers.foldl
      (fun acc p =>
        if p ≠ acc.myId ∧ p ∉ acc.knownPeers ∧ acc.connections.lookup p = none ∧
            p ∉ acc.pending then
          (connectToPeerById acc p).1
        else acc)
      st, [])

/-- The 10 Hz gate of the `animate` loop: one entry per render frame with
the frame's `performance.now()` time and whether the broadcast path was
reached with a live peer; a frame broadcasts exactly when more than
100 ms have passed since `lastUpdateTime`, which is then set to the
frame's time.  Returns the times at which a `playerMove` broadcast was
emitted. -/
def runBroadcasts (lastUpdate : ℚ) : List (ℚ × Bool) → List ℚ
  | [] => []
  | (t, active) :: rest =>
    if 100 < t - lastUpdate ∧ active then t :: runBroadcasts t rest
    else runBroadcasts lastUpdate rest

/-- Canvas-content envelopes, the ones the flood relay is about. -/
def isCanvasEnvelope : Envelope → Bool
  | .canvasData _ => true
  | .updateCanvas _ => true
  | _ => false

/-! ## Basic lemmas about the JS-collection operations -/

theorem lookup_setEntry_self {α : Type} (l : List (String × α)) (k : String) (v : α) :
    (setEntry l k v).lookup k = some v := by
  induction l with
  | nil => simp [setEntry, List.lookup]
  | cons hd tl ih =>
    obtain ⟨a, b⟩ := hd
    by_cases h : a = k
    · simp [setEntry, h, List.lookup]
    · have hba : (k == a) = false := by simp [Ne.symm h]
      simp [setEntry, h, List.lookup, hba, ih]

theorem lookup_setEntry_ne {α : Type} (l : List (String × α)) (k k' : String) (v : α)
    (h : k' ≠ k) : (setEntry l k v).lookup k' = l.lookup k' := by
  have hkk : (k' == k) = false := by simp [h]
  induction l with
  | nil => simp [setEntry, List.lookup, hkk]
  | cons hd tl ih =>
    obtain ⟨a, b⟩ := hd
    by_cases hk : a = k
    · subst hk
      simp [setEntry, List.lookup, hkk]
    · simp [setEntry, hk, List.lookup, ih]

theorem lookup_delEntry_self {α : Type} (l : List (String × α)) (k : String) :
    (delEntry l k).lookup k = none := by
  induction l with
  | nil => simp [delEntry]
  | cons hd tl ih =>
    obtain ⟨a, b⟩ := hd
    by_cases h : a = k
    · simpa [delEntry, List.filter, h] using ih
    · have hba : (k == a) = false := by simp [Ne.symm h]
      simpa [delEntry, List.filter, h, List.lookup, hba] using ih

theorem mem_removeAll {l : List String} {x y : String} :
    x ∈ removeAll l y ↔ x ∈ l ∧ x ≠ y := by
  simp [removeAll, List.mem_filter]

theorem not_mem_removeAll_self (l : List String) (x : String) :
    x ∉ removeAll l x := by
  simp [mem_removeAll]

theorem mem_insertUniq_self (l : List String) (x : String) : x ∈ insertUniq l x := by
  by_cases h : x ∈ l <;> simp [insertUniq, h]

theorem mem_insertUniq_of_mem {l : List String} {x : String} (y : String) (h : x ∈ l) :
    x ∈ insertUniq l y := by
  by_cases hy : y ∈ l <;> simp [insertUniq, hy, h]

theorem connect_noop_of_pending (st : NodeState) (p : String) (h : p ∈ st.pending) :
    connectToPeerById st p = (st, []) := by
  simp [connectToPeerById, h]

/-! ## C1: last-writer-wins by `updatedAtMillis` -/

/-- A local state whose canvas `north-0` holds image `old`, saved at
millisecond 1000. -/
def c1State : NodeState :=
  { myId := "me", peerAlive := true, connections := [], pending := [],
    knownPeers := ["me"], players := [], playerModels := [],
    canvasIds := ["north-0"],
    canvasTextures := [("north-0", "old")],
    canvasStorage := [("north-0", ⟨"old", 1000⟩)] }

/-- An incoming canvas update for `north-0` whose `updatedAtMillis` equals
the locally stored timestamp. -/
def c1Msg : CanvasMsg := ⟨"north-0", .raw "new", some 1000⟩

/-- C1, counterexample: an incoming canvas update whose `updatedAtMillis`
(1000) is not strictly greater than the local timestamp (1000) is still
applied — the local image changes from `old` to `new` — because
`handleCanvasData` performs no timestamp comparison at all.  This refutes
"applied if and only if `incoming.updatedAtMillis` is strictly greater"
and "equal timestamps keep the existing local value". -/
theorem C1_counterexample :
    c1Msg.updatedAtMillis = some 1000
  ∧ (c1State.canvasStorage.lookup "north-0").map StoredCanvas.timestamp = some 1000
  ∧ c1State.canvasTextures.lookup "north-0" = some "old"
  ∧ (handleCanvasData c1State 2000 c1Msg).canvasTextures.lookup "north-0" = some "new"
  ∧ (handleCanvasData c1State 2000 c1Msg).canvasStorage.lookup "north-0"
      = some ⟨"new", 2000⟩ := by
  decide

/-- C1, amended: a received canvas update for an existing canvas slot is
applied unconditionally — the slot's image becomes the incoming payload
and its stored timestamp becomes the receive time — and the result is
entirely independent of the message's `updatedAtMillis` field, which the
handler never reads. -/
theorem C1_amended (st : NodeState) (now : Nat) (d : CanvasMsg)
    (h1 : d.canvasId ≠ "") (h2 : d.canvasId ∈ st.canvasIds) :
    (handleCanvasData st now d).canvasTextures.lookup d.canvasId
      = some (resolveImage d.imageData)
  ∧ (handleCanvasData st now d).canvasStorage.lookup d.canvasId
      = some ⟨resolveImage d.imageData, now⟩
  ∧ ∀ t : Option Nat,
      handleCanvasData st now { d with updatedAtMillis := t }
        = handleCanvasData st now d := by
  refine ⟨?_, ?_, ?_⟩ <;> simp [handleCanvasData, h1, h2, lookup_setEntry_self]

/-- An incoming canvas update carrying no timestamp, as the source
actually sends them. -/
def c1WitMsg : CanvasMsg := ⟨"north-0", .raw "img", none⟩

/-- Witness for C1: the amended theorem evaluated on `c1State`. -/
theorem C1_amended_witness :
    (handleCanvasData c1State 7 c1WitMsg).canvasTextures.lookup "north-0"
      = some "img" :=
  (C1_amended c1State 7 c1WitMsg (by decide) (by decide)).1

/-! ## C2: controlled flood relay of `CanvasUpdate` -/

/-- A node with two open connections, to `A` and to `B`. -/
def c2State : NodeState :=
  { myId := "me", peerAlive := true,
    connections := [("A", true), ("B", true)], pending := [],
    knownPeers := ["me", "A", "B"], players := [], playerModels := [],
    canvasIds := ["north-0"], canvasTextures := [], canvasStorage := [] }

/-- A canvas edit relayed through the node. -/
def c2Msg : CanvasMsg := ⟨"north-0", .raw "edit", none⟩

/-- C2, counterexample: an `updateCanvas` envelope arriving from `A` is
forwarded to **both** open connections — including `A`, the connection it
arrived from — and the forwarded copies carry type `canvasData`, not the
original envelope type.  This refutes "to every other Open connection
except the connection it arrived from" and "the same envelope". -/
theorem C2_counterexample :
    (dispatchData c2State "A" (Envelope.updateCanvas c2Msg) 0).2
      = [("A", Envelope.canvasData c2Msg), ("B", Envelope.canvasData c2Msg)]
  ∧ ("A", Envelope.canvasData c2Msg)
      ∈ (dispatchData c2State "A" (Envelope.updateCanvas c2Msg) 0).2 := by
  decide

/-- C2, amended: on a received `updateCanvas` envelope the node applies it
locally and forwards the payload, retyped `canvasData`, to every Open
connection including the one it arrived from; a received `canvasData`
envelope is never re-broadcast, so any received envelope is relayed at
most once. -/
theorem C2_amended (st : NodeState) (fromPeer : String) (d : CanvasMsg) (now : Nat) :
    (dispatchData st fromPeer (Envelope.updateCanvas d) now).1
      = handleCanvasData st now d
  ∧ (dispatchData st fromPeer (Envelope.updateCanvas d) now).2
      = (openConnections st).map (fun p => (p, Envelope.canvasData d))
  ∧ ∀ (st' : NodeState) (f' : String) (now' : Nat),
      (dispatchData st' f' (Envelope.canvasData d) now').2 = [] :=
  ⟨rfl, rfl, fun _ _ _ => rfl⟩

/-! ## C3: `PlayerMove` applied unconditionally, last message wins -/

/-- C3: processing a `playerMove` message from a peer that has an avatar
entry updates that entry's position and rotation to the message values in
the same message-processing step, with no condition on ordering or
timestamps; a second message then overwrites the first, so the last
message received wins. -/
theorem C3_theorem (st : NodeState) (fromPeer : String) (md md' : MoveData)
    (pl : Player) (now now' : Nat)
    (h0 : fromPeer ≠ "") (h : st.players.lookup fromPeer = some pl) :
    (dispatchData st fromPeer (Envelope.playerMove md) now).1.players.lookup fromPeer
      = some { pl with position := md.position, rotation := md.rotation }
  ∧ (dispatchData (dispatchData st fromPeer (Envelope.playerMove md) now).1 fromPeer
        (Envelope.playerMove md') now').1.players.lookup fromPeer
      = some { pl with position := md'.position, rotation := md'.rotation } := by
  constructor
  · simp [dispatchData, handlePlayerMove, h0, h, lookup_setEntry_self]
  · simp [dispatchData, handlePlayerMove, h0, h, lookup_setEntry_self]

/-- Node B's avatar entry for node A before the spec's scenario. -/
def c3Player : Player := ⟨"A", "alice", ⟨5, 0, 5⟩, 0, "#FF0000"⟩

/-- Node B's state, already Open to A and holding A's avatar. -/
def c3State : NodeState :=
  { myId := "B", peerAlive := true, connections := [("A", true)], pending := [],
    knownPeers := ["B", "A"], players := [("A", c3Player)],
    playerModels := [("A", ⟨5, 0, 5, 0⟩)], canvasIds := [],
    canvasTextures := [], canvasStorage := [] }

/-- The spec's scenario move `PlayerMove{position:{1,0,1}, rotation:0.5}`. -/
def c3Move : MoveData := ⟨⟨1, 0, 1⟩, 1/2⟩

/-- A later move, to exhibit last-message-wins. -/
def c3Move' : MoveData := ⟨⟨2, 0, 3⟩, 1⟩

/-- Witness for C3: the spec's scenario evaluated concretely. -/
theorem C3_witness :
    (dispatchData c3State "A" (Envelope.playerMove c3Move) 0).1.players.lookup "A"
      = some { c3Player with position := ⟨1, 0, 1⟩, rotation := 1/2 }
  ∧ (dispatchData (dispatchData c3State "A" (Envelope.playerMove c3Move) 0).1 "A"
        (Envelope.playerMove c3Move') 0).1.players.lookup "A"
      = some { c3Player with position := ⟨2, 0, 3⟩, rotation := 1 } :=
  C3_theorem c3State "A" c3Move c3Move' c3Player 0 0 (by decide) (by decide)

/-! ## C4: 10-second connection timeout retry -/

/-- C4: when the 10-second timeout fires while the attempt is still
pending and the stored connection does not report open, the handler's
result is exactly: the pending entry and the connection entry discarded,
followed by one retry call of `connectToPeerById` for that peer — the
second component records exactly one retry call. -/
theorem C4_theorem (st : NodeState) (target : String)
    (h1 : target ∈ st.pending)
    (h2 : (st.connections.lookup target).getD false = false) :
    connectTimeout st target
      = ((connectToPeerById
            { st with pending := removeAll st.pending target,
                      connections := delEntry st.connections target } target).1,
         [target]) := by
  simp [connectTimeout, h1, h2]

/-- A node with a connection to `p` stuck Pending (not open). -/
def c4State : NodeState :=
  { myId := "me", peerAlive := true, connections := [("p", false)],
    pending := ["p"], knownPeers := ["me"], players := [], playerModels := [],
    canvasIds := [], canvasTextures := [], canvasStorage := [] }

/-- Witness for C4: firing the timeout on the stuck attempt issues exactly
one retry call. -/
theorem C4_witness : (connectTimeout c4State "p").2 = ["p"] := by
  have h := C4_theorem c4State "p" (by decide) (by decide)
  rw [h]

/-! ## C5: idempotence of `connect(peerId)` -/

/-- A node with an Open connection to `p` and no pending attempt. -/
def c5State : NodeState :=
  { myId := "me", peerAlive := true, connections := [("p", true)],
    pending := [], knownPeers := ["me", "p"], players := [], playerModels := [],
    canvasIds := [], canvasTextures := [], canvasStorage := [] }

/-- C5, counterexample: with an **Open** connection to `p` already stored
(and no pending attempt), `connectToPeerById "p"` is not a no-op: it
issues a fresh transport-level connect and replaces the open connection
with a new not-yet-open one, because the guard tests only the pending
map, never the connections map.  This refutes "connect is a no-op while a
Pending or Open connection for that peerId already exists". -/
theorem C5_counterexample :
    c5State.connections.lookup "p" = some true
  ∧ (connectToPeerById c5State "p").2 = ["p"]
  ∧ (connectToPeerById c5State "p").1.connections = [("p", false)]
  ∧ (connectToPeerById c5State "p").1 ≠ c5State := by
  decide

/-- C5, amended: two `connect` calls in quick succession still produce
exactly one attempt — the first marks the peer pending, stores one (not
yet open) `PeerConnection` and issues one transport connect, and the
second call is a no-op because the pending mark is set — but the guard is
only the pending mark (plus peer liveness): an existing Open connection
does not make `connect` a no-op. -/
theorem C5_amended (st : NodeState) (p : String)
    (h1 : st.peerAlive = true) (h2 : p ∉ st.pending) :
    (connectToPeerById st p).2 = [p]
  ∧ connectToPeerById (connectToPeerById st p).1 p = ((connectToPeerById st p).1, [])
  ∧ (connectToPeerById st p).1.connections.lookup p = some false := by
  refine ⟨?_, ?_, ?_⟩
  · simp [connectToPeerById, h1, h2]
  · have hm : p ∈ (connectToPeerById st p).1.pending := by
      simp [connectToPeerById, h1, h2, mem_insertUniq_self]
    exact connect_noop_of_pending _ _ hm
  · simp [connectToPeerById, h1, h2, lookup_setEntry_self]

/-- A node that has never tried to reach `q`. -/
def c5WitState : NodeState :=
  { myId := "me", peerAlive := true, connections := [], pending := [],
    knownPeers := ["me"], players := [], playerModels := [],
    canvasIds := [], canvasTextures := [], canvasStorage := [] }

/-- Witness for C5: the amended theorem evaluated on a fresh target. -/
theorem C5_amended_witness :
    (connectToPeerById c5WitState "q").2 = ["q"]
  ∧ connectToPeerById (connectToPeerById c5WitState "q").1 "q"
      = ((connectToPeerById c5WitState "q").1, [])
  ∧ (connectToPeerById c5WitState "q").1.connections.lookup "q" = some false :=
  C5_amended c5WitState "q" rfl (by decide)

/-! ## C6: echo suppression of our own `PlayerInfo` -/

/-- C6: a received `playerInfo` whose id equals the local node's own id
leaves the state completely unchanged — in particular no avatar entry and
no player model is created for the local id from a remote message. -/
theorem C6_theorem (st : NodeState) (pd : PlayerInfoData) (h : pd.id = st.myId) :
    handlePlayerInfo st pd = st := by
  by_cases h0 : pd.id = ""
  · simp [handlePlayerInfo, h0]
  · simp [handlePlayerInfo, h0, h]

/-- A node that knows only itself. -/
def c6State : NodeState :=
  { myId := "me", peerAlive := true, connections := [("A", true)], pending := [],
    knownPeers := ["me", "A"], players := [], playerModels := [],
    canvasIds := [], canvasTextures := [], canvasStorage := [] }

/-- A remote `playerInfo` that echoes the local node's own id. -/
def c6Info : PlayerInfoData := ⟨"me", "mallory", ⟨0, 0, 0⟩, 0, "#000000"⟩

/-- Witness for C6: the echoed info is discarded. -/
theorem C6_witness : handlePlayerInfo c6State c6Info = c6State :=
  C6_theorem c6State c6Info rfl

/-! ## C7: 10 Hz broadcast cadence cap -/

/-- The times of consecutive broadcasts, prefixed by the initial
`lastUpdateTime`, always grow by more than 100 ms per step. -/
theorem chain_runBroadcasts :
    ∀ (ts : List (ℚ × Bool)) (lastUpdate : ℚ),
      List.Chain' (fun a b => a + 100 < b) (lastUpdate :: runBroadcasts lastUpdate ts)
  | [], _ => by simp [runBroadcasts]
  | (t, active) :: rest, lastUpdate => by
    by_cases h : 100 < t - lastUpdate ∧ active
    · have h1 : (fun a b : ℚ => a + 100 < b) lastUpdate t := by
        show lastUpdate + 100 < t
        have := h.1
        linarith
      have h2 := chain_runBroadcasts rest t
      have hall : List.Chain' (fun a b : ℚ => a + 100 < b)
          (lastUpdate :: t :: runBroadcasts t rest) :=
        List.chain'_cons.mpr ⟨h1, h2⟩
      simpa [runBroadcasts, h] using hall
    · simpa [runBroadcasts, h] using chain_runBroadcasts rest lastUpdate

/-- C7: the `animate` loop's broadcast gate emits `playerMove` broadcasts
more than 100 ms apart — every broadcast happens more than 100 ms after
the previous `lastUpdateTime`, and any two broadcasts in a run are more
than 100 ms apart, however often the render loop runs.  So at most one
broadcast falls in any 100 ms window: a 10 Hz cap. -/
theorem C7_theorem (lastUpdate : ℚ) (ts : List (ℚ × Bool)) :
    List.Chain' (fun a b => a + 100 < b)
      (lastUpdate :: runBroadcasts lastUpdate ts)
  ∧ List.Pairwise (fun a b => a + 100 < b) (runBroadcasts lastUpdate ts) := by
  have hchain := chain_runBroadcasts ts lastUpdate
  refine ⟨hchain, ?_⟩
  haveI : IsTrans ℚ (fun a b => a + 100 < b) :=
    ⟨fun a b c hab hbc => by
      have hab' : a + 100 < b := hab
      have hbc' : b + 100 < c := hbc
      show a + 100 < c
      linarith⟩
  have hp := List.chain'_iff_pairwise.mp hchain
  exact (List.pairwise_cons.mp hp).2

/-! ## C8: close vs error-close and the `KnownPeerSet` -/

/-- The avatar entry of peer `p` in the C8 scenario. -/
def c8Player : Player := ⟨"p", "pat", ⟨0, 0, 0⟩, 0, "#00FF00"⟩

/-- A node with an Open connection to `p`, `p`'s avatar, and `p` in its
known-peer set. -/
def c8State : NodeState :=
  { myId := "me", peerAlive := true, connections := [("p", true)], pending := [],
    knownPeers := ["me", "p"], players := [("p", c8Player)],
    playerModels := [("p", ⟨0, 0, 0, 0⟩)], canvasIds := [],
    canvasTextures := [], canvasStorage := [] }

/-- C8, counterexample: a graceful close of the connection to `p` does
**not** leave `p` in the known-peer set — the close handler calls
`handlePlayerLeft` and then deletes `p` from `knownPeers` itself.  This
refutes "the peer remains a member of KnownPeerSet" on graceful close. -/
theorem C8_counterexample :
    "p" ∈ c8State.knownPeers
  ∧ (connCloseEvent c8State "p").knownPeers = ["me"]
  ∧ "p" ∉ (connCloseEvent c8State "p").knownPeers := by
  decide

/-- C8, amended: the source has it the other way round — a graceful close
removes the PeerConnection, the peer's avatar **and** the KnownPeerSet
entry, while an error-close leaves the KnownPeerSet untouched (membership
there is exactly what the error path's reconnect timer later checks). -/
theorem C8_amended (st : NodeState) (p : String) (h : p ≠ "") :
    (connCloseEvent st p).connections.lookup p = none
  ∧ (connCloseEvent st p).players.lookup p = none
  ∧ p ∉ (connCloseEvent st p).knownPeers
  ∧ (connErrorEvent st p).knownPeers = st.knownPeers := by
  refine ⟨?_, ?_, ?_, ?_⟩
  · simp [connCloseEvent, handlePlayerLeft, h, lookup_delEntry_self]
  · simp [connCloseEvent, handlePlayerLeft, h, lookup_delEntry_self]
  · simp [connCloseEvent, handlePlayerLeft, h, not_mem_removeAll_self]
  · simp only [connErrorEvent]
    split <;> rfl

/-- Witness for C8: the amended theorem evaluated on the C8 scenario. -/
theorem C8_amended_witness :
    (connCloseEvent c8State "p").connections.lookup "p" = none
  ∧ (connCloseEvent c8State "p").players.lookup "p" = none
  ∧ "p" ∉ (connCloseEvent c8State "p").knownPeers
  ∧ (connErrorEvent c8State "p").knownPeers = c8State.knownPeers :=
  C8_amended c8State "p" (by decide)

/-! ## C9: one-hop relay — `updateCanvas` in, `canvasData` out -/

/-- C9: a `canvasData` envelope is applied but never re-broadcast; an
`updateCanvas` envelope is forwarded to the open connections retyped as
`canvasData`; canvas-typed envelopes are only ever emitted while handling
an `updateCanvas` envelope; and dispatching any forwarded copy, on any
node, emits nothing — so a canvas edit propagates at most one relay hop
beyond the peers directly connected to its originator. -/
theorem C9_theorem (st st' : NodeState) (f f' : String) (d : CanvasMsg)
    (env : Envelope) (now now' : Nat) :
    (dispatchData st f (Envelope.canvasData d) now).2 = []
  ∧ (dispatchData st f (Envelope.updateCanvas d) now).2
      = (openConnections st).map (fun p => (p, Envelope.canvasData d))
  ∧ (∀ s, s ∈ (dispatchData st f env now).2 → isCanvasEnvelope s.2 = true →
      ∃ d2, env = Envelope.updateCanvas d2)
  ∧ (∀ s, s ∈ (dispatchData st f (Envelope.updateCanvas d) now).2 →
      (dispatchData st' f' s.2 now').2 = []) := by
  refine ⟨rfl, rfl, ?_, ?_⟩
  · intro s hs hcanvas
    cases env with
    | playerInfo d2 => simp [dispatchData] at hs
    | playerMove d2 => simp [dispatchData] at hs
    | canvasData d2 => simp [dispatchData] at hs
    | updateCanvas d2 => exact ⟨d2, rfl⟩
    | playerLeft id => simp [dispatchData] at hs
    | requestPeerList =>
      by_cases hopen : (st.connections.lookup f).getD false = true
      · simp [dispatchData, hopen] at hs
        rw [hs] at hcanvas
        simp [isCanvasEnvelope] at hcanvas
      · simp [dispatchData, hopen] at hs
    | peerList peers => simp [dispatchData] at hs
  · intro s hs
    have hs' : s ∈ (openConnections st).map (fun p => (p, Envelope.canvasData d)) := hs
    rcases List.mem_map.mp hs' with ⟨a, _, hEq⟩
    rw [← hEq]
    rfl

/-- A relay node connected to the originator `A` and a third peer `B`. -/
def c9State : NodeState :=
  { myId := "me", peerAlive := true,
    connections := [("A", true), ("B", true)], pending := [],
    knownPeers := ["me", "A", "B"], players := [], playerModels := [],
    canvasIds := ["north-0"], canvasTextures := [], canvasStorage := [] }

/-- The canvas edit relayed in the C9 witness. -/
def c9Msg : CanvasMsg := ⟨"north-0", .raw "edit9", none⟩

/-- Witness for C9: the forwarded copy reaches `B` typed `canvasData`,
the emitting envelope is an `updateCanvas`, and dispatching the forwarded
copy at `B` emits nothing. -/
theorem C9_witness :
    ("B", Envelope.canvasData c9Msg)
      ∈ (dispatchData c9State "A" (Envelope.updateCanvas c9Msg) 0).2
  ∧ (∃ d2, Envelope.updateCanvas c9Msg = Envelope.updateCanvas d2)
  ∧ (dispatchData c9State "B" (Envelope.canvasData c9Msg) 1).2 = [] := by
  have h := C9_theorem c9State c9State "A" "B" c9Msg (Envelope.updateCanvas c9Msg) 0 1
  refine ⟨by decide, ?_, ?_⟩
  · exact h.2.2.1 ("B", Envelope.canvasData c9Msg) (by decide) (by decide)
  · exact h.2.2.2 ("B", Envelope.canvasData c9Msg) (by decide)

/-! ## C10: the local id's membership in `KnownPeerSet` -/

theorem connectToPeerById_knownPeers (st : NodeState) (p : String) :
    (connectToPeerById st p).1.knownPeers = st.knownPeers := by
  unfold connectToPeerById
  split <;> rfl

theorem connectToPeerById_myId (st : NodeState) (p : String) :
    (connectToPeerById st p).1.myId = st.myId := by
  unfold connectToPeerById
  split <;> rfl

/-- The local player's avatar entry in the C10 scenario. -/
def c10Player : Player := ⟨"me", "max", ⟨0, 0, 0⟩, 0, "#123456"⟩

/-- A node whose open event has run: its own id is in `knownPeers`. -/
def c10State : NodeState :=
  { myId := "me", peerAlive := true, connections := [("A", true)], pending := [],
    knownPeers := ["me", "A"], players := [("me", c10Player)],
    playerModels := [("me", ⟨0, 0, 0, 0⟩)], canvasIds := [],
    canvasTextures := [], canvasStorage := [] }

/-- C10, counterexample: the `playerLeft` handler performs **no**
self-check — a received `playerLeft` message whose id is the local id
(reachable, since the handler is fed `data.data.id` straight from the
network) deletes the local id from `knownPeers`, so not every operation
preserves the membership and the handler does not "delete only remote
ids". -/
theorem C10_counterexample :
    c10State.myId ∈ c10State.knownPeers
  ∧ (handlePlayerLeft c10State c10State.myId).knownPeers = ["A"]
  ∧ c10State.myId ∉ (handlePlayerLeft c10State c10State.myId).knownPeers := by
  decide

/-- C10, amended: the local open event does put the assigned id into
`knownPeers`; the `playerLeft` and connection-close handlers preserve the
local id's membership **provided** the id they are handed is not the
local id (they have no self-check of their own); and `forceReconnect`
re-seeds the cleared set with the local id whenever one is assigned. -/
theorem C10_amended (st : NodeState) (id username color p : String) (pos : Pos)
    (url : Option String) (hp : p ≠ st.myId) (hm : st.myId ∈ st.knownPeers)
    (hid : st.myId ≠ "") :
    (peerOpenEvent st id username color pos url).1.myId
      ∈ (peerOpenEvent st id username color pos url).1.knownPeers
  ∧ st.myId ∈ (handlePlayerLeft st p).knownPeers
  ∧ st.myId ∈ (connCloseEvent st p).knownPeers
  ∧ st.myId ∈ (forceReconnect st).knownPeers := by
  have hmemP : ∀ l : List String, st.myId ∈ l → st.myId ∈ removeAll l p :=
    fun l hl => mem_removeAll.mpr ⟨hl, Ne.symm hp⟩
  refine ⟨?_, ?_, ?_, ?_⟩
  · have hA : (peerOpenEvent st id username color pos url).1.myId = id := by
      cases url with
      | none => rfl
      | some u =>
        by_cases hu : u ≠ "" ∧ u ≠ id
        · simp [peerOpenEvent, createPlayerModel, hu, connectToPeerById_myId]
        · simp [peerOpenEvent, createPlayerModel, hu]
    have hB : (peerOpenEvent st id username color pos url).1.knownPeers
        = insertUniq st.knownPeers id := by
      cases url with
      | none => rfl
      | some u =>
        by_cases hu : u ≠ "" ∧ u ≠ id
        · simp [peerOpenEvent, createPlayerModel, hu, connectToPeerById_knownPeers]
        · simp [peerOpenEvent, createPlayerModel, hu]
    rw [hA, hB]
    exact mem_insertUniq_self _ _
  · by_cases hpe : p = ""
    · simpa [handlePlayerLeft, hpe] using hm
    · simpa [handlePlayerLeft, hpe] using hmemP st.knownPeers hm
  · by_cases hpe : p = ""
    · simpa [connCloseEvent, handlePlayerLeft, hpe] using hmemP st.knownPeers hm
    · simpa [connCloseEvent, handlePlayerLeft, hpe]
        using hmemP _ (hmemP st.knownPeers hm)
  · simp [forceReconnect, hid]

/-- Witness for C10: the amended theorem evaluated on the C10 scenario
(an assigned local id, a remote id `A`, a fresh open event). -/
theorem C10_amended_witness :
    (peerOpenEvent c10State "newid" "max" "#ffffff" ⟨0, 0, 0⟩ none).1.myId
      ∈ (peerOpenEvent c10State "newid" "max" "#ffffff" ⟨0, 0, 0⟩ none).1.knownPeers
  ∧ c10State.myId ∈ (handlePlayerLeft c10State "A").knownPeers
  ∧ c10State.myId ∈ (connCloseEvent c10State "A").knownPeers
  ∧ c10State.myId ∈ (forceReconnect c10State).knownPeers :=
  C10_amended c10State "newid" "max" "#ffffff" "A" ⟨0, 0, 0⟩ none
    (by decide) (by decide) (by decide)

end ArMesh
